import Mathlib

/-!
Verification of the multi-stage claim-verification and concordance pipeline
(`app/services/verification.py`, `app/services/verification_v3.py`,
`app/models.py`, `app/routers/api.py`).

Conventions of the embedding:
* Python strings are Lean `String`s; `str.strip`, `str.split("\n")`,
  `str.find`, `str.rfind` and slicing are re-implemented below with Python
  semantics (`pyStrip`, `splitLines`, `pyFindSub`, `pyRFindChar`, `pySlice`).
* `json.loads` is the Python standard library, external to the repository; it
  is modelled as an input of type `String → Except String Json` handed to the
  functions that call it.  The payload type `Json` mirrors the values
  `json.loads` can produce.
* Pydantic model validation (`app/models.py`) is embedded as explicit parsing
  functions `Json → Except String _` that require each declared field with its
  declared type and default optional fields to `none`.
* The Anthropic client is external; an oracle call is modelled by its outcome
  (`OracleOutcome`): either a response text or an `anthropic.APIError` whose
  message may or may not contain "overloaded".  Calls made, sleeps performed
  and the prompt sent are recorded explicitly.
* Rates computed with Python float division are modelled over `ℚ`; the inputs
  of every statement below keep the arithmetic exact.
-/

namespace OpenEval

/-! ### Python string primitives -/

/-- The whitespace characters removed by Python's `str.strip()` (ASCII). -/
def pyIsSpace (c : Char) : Bool :=
  c == ' ' || c == '\t' || c == '\n' || c == '\r' || c == Char.ofNat 11 || c == Char.ofNat 12

/-- Python `str.strip()`. -/
def pyStrip (s : String) : String :=
  String.mk (((s.toList.dropWhile pyIsSpace).reverse.dropWhile pyIsSpace).reverse)

/-- Splitting a character list at every occurrence of `c` (the separator is
dropped, empty segments kept), the semantics of Python `str.split(c)`. -/
def splitOnChar (c : Char) : List Char → List (List Char)
  | [] => [[]]
  | x :: xs =>
    match splitOnChar c xs with
    | [] => [[]]
    | g :: gs => if x == c then [] :: g :: gs else (x :: g) :: gs

/-- Python `str.split("\n")`. -/
def splitLines (s : String) : List String :=
  (splitOnChar '\n' s.toList).map String.mk

def joinLinesList : List (List Char) → List Char
  | [] => []
  | [x] => x
  | x :: y :: ys => x ++ '\n' :: joinLinesList (y :: ys)

/-- Python `"\n".join(lines)`. -/
def joinLines (lines : List String) : String :=
  String.mk (joinLinesList (lines.map String.toList))

/-- The fence delimiter of a markdown code block. -/
def tripleBacktick : String := "```"

/-- Index of the first position `≥ i` where `needle` occurs in `hay`
(Python `hay.find(needle, i)` restricted to found results). -/
def findSubAux (needle : List Char) : List Char → Nat → Option Nat
  | [], i => if needle.isEmpty then some i else none
  | c :: rest, i =>
    if needle.isPrefixOf (c :: rest) then some i else findSubAux needle rest (i + 1)

/-- Python `s.find(sub, start)`, returning `none` instead of `-1`. -/
def pyFindSub (s sub : String) (start : Nat) : Option Nat :=
  match findSubAux sub.toList (s.toList.drop start) 0 with
  | some j => some (start + j)
  | none => none

/-- Python `sub in s` (substring membership). -/
def containsSub (s sub : String) : Bool :=
  (pyFindSub s sub 0).isSome

/-- Python `s.startswith(pre)`. -/
def pyStartsWith (s pre : String) : Bool :=
  pre.toList.isPrefixOf s.toList

/-- Python `s.find(c)` for a single character, `none` instead of `-1`. -/
def pyFindChar (c : Char) (s : String) : Option Nat :=
  s.toList.findIdx? (fun x => x == c)

/-- Python `s.rfind(c)` for a single character, `none` instead of `-1`. -/
def pyRFindChar (c : Char) (s : String) : Option Nat :=
  match s.toList.reverse.findIdx? (fun x => x == c) with
  | some j => some (s.toList.length - 1 - j)
  | none => none

/-- Python slice `s[a:b]`. -/
def pySlice (s : String) (a b : Nat) : String :=
  String.mk ((s.toList.drop a).take (b - a))

/-- Python slice `s[:n]`. -/
def pyTake (s : String) (n : Nat) : String :=
  pySlice s 0 n

def lbrace : Char := Char.ofNat 123
def rbrace : Char := Char.ofNat 125
def lbracket : Char := Char.ofNat 91
def rbracket : Char := Char.ofNat 93

/-! ### `extract_json_from_response` (verification_v3.py, lines 36-84) -/

/-- First index of a line whose stripped form starts with a fence
(the `for i, line in enumerate(lines)` search). -/
def findOpenFence (lines : List String) : Option Nat :=
  lines.findIdx? (fun l => pyStartsWith (pyStrip l) tripleBacktick)

/-- First index `≥ start` of a line whose stripped form is exactly a fence
(the `for i in range(start_idx, len(lines))` search). -/
def findCloseFence (lines : List String) (start : Nat) : Option Nat :=
  match (lines.drop start).findIdx? (fun l => pyStrip l == tripleBacktick) with
  | some j => some (start + j)
  | none => none

/-- The fence-handling block of `extract_json_from_response`
(`if "```" in text:` body). -/
def fenceExtract (text : String) : String :=
  let lines := splitLines text
  match findOpenFence lines with
  | none => text
  | some i =>
    let startIdx := i + 1
    match findCloseFence lines startIdx with
    | some endIdx =>
      if startIdx < endIdx then
        joinLines ((lines.drop startIdx).take (endIdx - startIdx))
      else
        joinLines (lines.drop startIdx)
    | none => joinLines (lines.drop startIdx)

/-- The suffix of `s` starting at the first occurrence of `c`
(Python `s[s.find(c):]` guarded by `s.find(c) >= 0`). -/
def suffixFromChar (c : Char) (s : String) : Option String :=
  let rest := s.toList.dropWhile (fun x => x != c)
  if rest.isEmpty then none else some (String.mk rest)

/-- The empty-text fallback of `extract_json_from_response`: look for the
first `{`, then the first `[`, in the ORIGINAL response text and keep the
suffix from there. -/
def braceFallback (response_text text : String) : String :=
  match suffixFromChar lbrace response_text with
  | some t => t
  | none =>
    match suffixFromChar lbracket response_text with
    | some t => t
    | none => text

/-- `extract_json_from_response(response_text)` from verification_v3.py. -/
def extract_json_from_response (response_text : String) : String :=
  let text := pyStrip response_text
  let text := if containsSub text tripleBacktick then fenceExtract text else text
  let text := if pyStrip text == "" then braceFallback response_text text else text
  pyStrip text

/-! ### The inline JSON-text extraction of `verify_claims` /
`extract_claims_with_references` (verification.py, lines 271-301 / 450-479) -/

/-- The fence-removal step: character-based `find` of the first fence, skip to
the next newline, cut at the next fence if any.  A missing newline after the
fence makes Python's `find("\n", start) + 1` evaluate to `0`; that case is kept
faithfully. -/
def v1FenceStrip (s : String) : String :=
  if containsSub s tripleBacktick then
    match pyFindSub s tripleBacktick 0 with
    | none => s
    | some startMarker =>
      let contentStart :=
        match pyFindSub s "\n" startMarker with
        | some i => i + 1
        | none => 0
      match pyFindSub s tripleBacktick contentStart with
      | some endMarker => pyStrip (pySlice s contentStart endMarker)
      | none => s
  else s

/-- The brace-substring step: `s[s.find("{") : s.rfind("}") + 1]` when both
ends exist in the right order, the whole text otherwise. -/
def v1BraceSubstring (s : String) : String :=
  match pyFindChar lbrace s, pyRFindChar rbrace s with
  | some js, some je => if je + 1 > js then pySlice s js (je + 1) else s
  | _, _ => s

/-- The JSON-text extraction inlined in `verify_claims` (and repeated verbatim
in `extract_claims_with_references`). -/
def v1ExtractJsonText (response_text : String) : String :=
  v1BraceSubstring (v1FenceStrip response_text)

/-- Modelled from the spec (§4.2 step 2), for comparison with
`extract_json_from_response`: "locate the first `{` or `[` and the last
matching `}` or `]` in the raw text and take the substring between them";
`none` when no opening bracket or no matching closer follows it. -/
def specBracketSubstring (s : String) : Option String :=
  match s.toList.findIdx? (fun c => c == lbrace || c == lbracket) with
  | none => none
  | some i =>
    let closer := if s.toList.getD i ' ' == lbrace then rbrace else rbracket
    match pyRFindChar closer s with
    | none => none
    | some j => if i ≤ j then some (pySlice s i (j + 1)) else none

/-! ### JSON values and pydantic model validation (`app/models.py`)

`Json` is the image of `json.loads`; object keys keep Python's
last-occurrence-wins lookup.  Each `parse…` function embeds the pydantic
model of the same name: every declared required field must be present with
its declared type, `Optional[...] = None` fields default to `none`, unknown
keys are ignored. -/

inductive Json where
  | null
  | bool (b : Bool)
  | num (n : Int)
  | str (s : String)
  | arr (items : List Json)
  | obj (fields : List (String × Json))

/-- Lookup in a decoded JSON object (duplicate keys: last occurrence wins,
as in `json.loads`). -/
def jlookup (fields : List (String × Json)) (key : String) : Option Json :=
  (fields.reverse.find? (fun p => p.1 == key)).map (fun p => p.2)

def getField : Json → String → Option Json
  | .obj fs, k => jlookup fs k
  | _, _ => none

def asStr : Json → Except String String
  | .str s => .ok s
  | _ => .error "expected a string"

def asStrList : Json → Except String (List String)
  | .arr xs => xs.mapM asStr
  | _ => .error "expected a list of strings"

def reqField (j : Json) (k : String) : Except String Json :=
  match getField j k with
  | some v => .ok v
  | none => .error ("field required: " ++ k)

def reqStrField (j : Json) (k : String) : Except String String :=
  reqField j k >>= asStr

def reqStrListField (j : Json) (k : String) : Except String (List String) :=
  reqField j k >>= asStrList

def optStrField (j : Json) (k : String) : Except String (Option String) :=
  match getField j k with
  | none => .ok none
  | some .null => .ok none
  | some v => (asStr v).map some

/-- `LLMClaimV3` (models.py, lines 313-320). -/
structure LLMClaimV3 where
  claim_id : String
  claim : String
  claim_type : String
  source_text : String
  evidence_type : List String
  evidence_reasoning : String
deriving DecidableEq, Repr

/-- `LLMResultV3` (models.py, lines 328-332). -/
structure LLMResultV3 where
  claim_ids : List String
  status : String
  status_reasoning : String
deriving DecidableEq, Repr

/-- `LLMResultsConcordanceRow` (models.py, lines 340-347). -/
structure LLMResultsConcordanceRow where
  llm_claim_ids : List String
  peer_claim_ids : List String
  llm_status : String
  peer_status : String
  agreement_status : String
  notes : Option String
deriving DecidableEq, Repr

/-- `LLMClaim` (models.py, lines 134-142): the v1 claim record. -/
structure LLMClaim where
  claim : String
  source_text : String
  status : String
  evidence : String
  evidence_basis : String
  reference_claims : Option (List Int)
  reference_rationale : Option String
deriving DecidableEq, Repr

def parseLLMClaimV3 (j : Json) : Except String LLMClaimV3 := do
  let claim_id ← reqStrField j "claim_id"
  let claim ← reqStrField j "claim"
  let claim_type ← reqStrField j "claim_type"
  let source_text ← reqStrField j "source_text"
  let evidence_type ← reqStrListField j "evidence_type"
  let evidence_reasoning ← reqStrField j "evidence_reasoning"
  return ⟨claim_id, claim, claim_type, source_text, evidence_type, evidence_reasoning⟩

/-- `LLMClaimsResponseV3` (models.py, lines 323-325): a `claims` list. -/
def parseLLMClaimsResponseV3 (j : Json) : Except String (List LLMClaimV3) := do
  let c ← reqField j "claims"
  match c with
  | .arr items => items.mapM parseLLMClaimV3
  | _ => .error "claims: expected a list"

def parseLLMResultV3 (j : Json) : Except String LLMResultV3 := do
  let claim_ids ← reqStrListField j "claim_ids"
  let status ← reqStrField j "status"
  let status_reasoning ← reqStrField j "status_reasoning"
  return ⟨claim_ids, status, status_reasoning⟩

/-- `LLMResultsResponseV3` (models.py, lines 335-337): a `results` list. -/
def parseLLMResultsResponseV3 (j : Json) : Except String (List LLMResultV3) := do
  let r ← reqField j "results"
  match r with
  | .arr items => items.mapM parseLLMResultV3
  | _ => .error "results: expected a list"

def parseLLMResultsConcordanceRow (j : Json) : Except String LLMResultsConcordanceRow := do
  let llm_claim_ids ← reqStrListField j "llm_claim_ids"
  let peer_claim_ids ← reqStrListField j "peer_claim_ids"
  let llm_status ← reqStrField j "llm_status"
  let peer_status ← reqStrField j "peer_status"
  let agreement_status ← reqStrField j "agreement_status"
  let notes ← optStrField j "notes"
  return ⟨llm_claim_ids, peer_claim_ids, llm_status, peer_status, agreement_status, notes⟩

/-- `LLMResultsConcordanceResponse` (models.py, lines 350-352). -/
def parseLLMResultsConcordanceResponse (j : Json) :
    Except String (List LLMResultsConcordanceRow) := do
  let c ← reqField j "concordance"
  match c with
  | .arr items => items.mapM parseLLMResultsConcordanceRow
  | _ => .error "concordance: expected a list"

def asIntList : Json → Except String (List Int)
  | .arr xs => xs.mapM (fun j => match j with | .num n => .ok n | _ => .error "expected an integer")
  | _ => .error "expected a list of integers"

def optIntListField (j : Json) (k : String) : Except String (Option (List Int)) :=
  match getField j k with
  | none => .ok none
  | some .null => .ok none
  | some v => (asIntList v).map some

def parseLLMClaim (j : Json) : Except String LLMClaim := do
  let claim ← reqStrField j "claim"
  let source_text ← reqStrField j "source_text"
  let status ← reqStrField j "status"
  let evidence ← reqStrField j "evidence"
  let evidence_basis ← reqStrField j "evidence_basis"
  let reference_claims ← optIntListField j "reference_claims"
  let reference_rationale ← optStrField j "reference_rationale"
  return ⟨claim, source_text, status, evidence, evidence_basis, reference_claims, reference_rationale⟩

/-- `LLMAnalysisResponse` (models.py, lines 145-147). -/
def parseLLMAnalysisResponse (j : Json) : Except String (List LLMClaim) := do
  let c ← reqField j "claims"
  match c with
  | .arr items => items.mapM parseLLMClaim
  | _ => .error "claims: expected a list"

/-- `MANUSCRIPT_CLAIM_EXTRACTION_PROMPT` (verification.py, lines 22-106). -/
def MANUSCRIPT_CLAIM_EXTRACTION_PROMPT : String :=
  "You are a CRITICAL BUT FAIR scientific reviewer analyzing a manuscript for publication.\n\n<instructions>\nYour task is to:\n1. Extract all verifiable factual claims from the manuscript text\n2. For each claim, identify the source text where it appears\n3. Classify each claim by its evidence basis\n4. Critically evaluate if each claim is SUPPORTED, UNSUPPORTED, or UNCERTAIN\n\nIMPORTANT: You can ONLY verify claims based on:\n- Internal consistency (comparing claims against other content within the manuscript)\n- General knowledge (well-established scientific facts that are universally accepted)\n\nYou do NOT have access to external papers, databases, raw data, or domain-specific expertise.\nTherefore, most claims will appropriately be marked as UNCERTAIN pending external verification.\n</instructions>\n\n<claim_definition>\nA scientific claim is an ATOMIC VERIFIABLE STATEMENT expressing a finding about one aspect of a scientific entity or process.\n\nValid claim examples:\n- \x22The R0 of the novel coronavirus is 2.5\x22\n- \x22Aerosolized coronavirus droplets can travel at least 6 feet\x22\n- \x22Droplets can remain in the air for 3 hours\x22\n\nDo NOT include:\n- Opinion-based statements\n- Compound claims (split them into separate atomic claims)\n- Purely speculative statements without basis\n</claim_definition>\n\n<evidence_basis>\nClassify each claim's evidence basis as ONE of:\n\n- DATA: Grounded in THIS paper's experimental or observational data\n- CITATION: Grounded in external cited work\n- KNOWLEDGE: Grounded in well-established facts\n- INFERENCE: Grounded in logical reasoning from data or knowledge\n- SPECULATION: Grounded in hypothesis or prediction not yet verified\n</evidence_basis>\n\n<verification_criteria>\nSUPPORTED - Only if you can definitively verify using internal consistency or general knowledge:\n- KNOWLEDGE claims with universally accepted facts\n- INFERENCE claims with sound logical reasoning and stated premises\n- Claims consistently supported by multiple parts of the manuscript\n- Methodological descriptions clearly stated in the manuscript\n\nUNSUPPORTED - Only if you can definitively identify a problem:\n- Internal contradictions within the manuscript\n- INFERENCE claims with demonstrable logical errors\n- Claims contradicting well-established scientific knowledge\n- Clear overstatement of what the manuscript presents\n\nUNCERTAIN - For claims requiring external verification (MOST CLAIMS):\n- DATA claims (cannot verify experimental results or statistical analysis)\n- CITATION claims (cannot verify cited work)\n- Quantitative claims (cannot verify without raw data)\n- Any claim requiring tools, external information, or domain expertise\n\nBE REALISTIC: Most scientific claims require external verification. A high UNCERTAIN rate (60-80%) is expected and appropriate.\n</verification_criteria>\n\n<output_format>\nReturn ONLY a JSON object with this structure (no other text before or after):\n\n\x7b\n  \x22claims\x22: [\n    \x7b\n      \x22claim\x22: \x22String describing the atomic factual claim\x22,\n      \x22source_text\x22: \x22The excerpt from the manuscript where this claim appears (keep it concise, 1-2 sentences max)\x22,\n      \x22status\x22: \x22SUPPORTED|UNSUPPORTED|UNCERTAIN\x22,\n      \x22evidence\x22: \x22Brief explanation of verification reasoning (1-2 sentences)\x22,\n      \x22evidence_basis\x22: \x22DATA|CITATION|KNOWLEDGE|INFERENCE|SPECULATION\x22,\n      \x22reference_claims\x22: null,\n      \x22reference_rationale\x22: null\n    \x7d\n  ]\n\x7d\n\nIMPORTANT: For manuscript claims, always set reference_claims to null and reference_rationale to null.\n</output_format>\n\n<manuscript>\n"

/-- `STAGE1_PROMPT_TEMPLATE` (verification_v3.py, lines 91-148). -/
def STAGE1_PROMPT_TEMPLATE : String :=
  "You are a scientific claim extraction expert. Your task is to extract ALL atomic factual claims from a scientific manuscript.\n\n# Claim Extraction Guidelines\n\n## What is an Atomic Factual Claim?\nAn atomic factual claim is a single, discrete, factual statement that:\n- Makes ONE specific assertion about the world\n- Can be evaluated as supported or unsupported independently\n- Cannot be meaningfully broken down into smaller factual components\n\n## Claim Types\n- **EXPLICIT**: Directly stated in the text\n- **IMPLICIT**: Logically follows from what is stated but not directly written\n\n## Evidence Types (can be multiple)\n- **DATA**: Based on experimental data, measurements, or observations presented in the paper\n- **CITATION**: Supported by citation to other work\n- **KNOWLEDGE**: Relies on established scientific knowledge or consensus\n- **INFERENCE**: Logical inference from presented information\n- **SPECULATION**: Speculative or hypothetical assertion\n\n## Extraction Rules\n1. Extract ALL factual claims, both major findings and supporting statements\n2. Each claim should be completely self-contained and understandable on its own\n3. Include exact source text (direct quote from manuscript)\n4. Provide brief reasoning for evidence type classification\n5. Use sequential IDs: C1, C2, C3, etc.\n6. DO NOT evaluate claims - only extract and categorize them\n\n## Example Output Format\n```json\n\x7b\n  \x22claims\x22: [\n    \x7b\n      \x22claim_id\x22: \x22C1\x22,\n      \x22claim\x22: \x22Protein X phosphorylates protein Y at serine 123\x22,\n      \x22claim_type\x22: \x22EXPLICIT\x22,\n      \x22source_text\x22: \x22We found that protein X directly phosphorylates protein Y at serine 123 in vitro\x22,\n      \x22evidence_type\x22: [\x22DATA\x22],\n      \x22evidence_reasoning\x22: \x22Based on experimental phosphorylation assay results presented in Figure 2\x22\n    \x7d,\n    \x7b\n      \x22claim_id\x22: \x22C2\x22,\n      \x22claim\x22: \x22Phosphorylation of Y is required for cell migration\x22,\n      \x22claim_type\x22: \x22EXPLICIT\x22,\n      \x22source_text\x22: \x22Cells expressing non-phosphorylatable Y-S123A showed 80% reduction in migration\x22,\n      \x22evidence_type\x22: [\x22DATA\x22, \x22INFERENCE\x22],\n      \x22evidence_reasoning\x22: \x22Direct measurement of cell migration combined with inference about requirement\x22\n    \x7d\n  ]\n\x7d\n```\n\n# Manuscript to Analyze\n\n$MANUSCRIPT_TEXT\n\nPlease extract ALL atomic factual claims from this manuscript. Return ONLY valid JSON matching the schema above."

/-! ### The post-decode part of the V3 stages (verification_v3.py)

Each stage sends one prompt, receives `response_text`, extracts a JSON text,
decodes it with `json.loads`, validates with the stage's pydantic model and
wraps any failure in a `ValueError` labelled with the stage name.  The
functions below embed everything after `json.loads`, taking the decode result
as input; `stageParse` is the shared try/except structure of the four stages
(JSONDecodeError → "Failed to parse…", validation error → "Failed to
validate…"). -/

def stageParse {α : Type} (validate : Json → Except String α)
    (decodeResult : Except String Json) : Except String α :=
  match decodeResult with
  | .error e => .error ("Failed to parse LLM response as JSON: " ++ e)
  | .ok data =>
    match validate data with
    | .ok v => .ok v
    | .error e => .error ("Failed to validate LLM response: " ++ e)

/-- `llm_group_claims_into_results` (verification_v3.py, lines 258-326) from
the `json.loads` call on: the manuscript text and the grounding claims only
shape the prompt, never the validation, so the output is exactly what the
oracle's decoded response validates to. -/
def llm_group_claims_into_results_pure (manuscript_text : String)
    (claims : List LLMClaimV3) (decodeResult : Except String Json) :
    Except String (List LLMResultV3) :=
  (stageParse parseLLMResultsResponseV3 decodeResult).mapError
    (fun e => "Stage 2 (LLM Result Grouping) failed: " ++ e)

/-- `peer_review_group_claims_into_results` (verification_v3.py, lines
385-453) from the `json.loads` call on. -/
def peer_review_group_claims_into_results_pure (claims : List LLMClaimV3)
    (review_text : String) (decodeResult : Except String Json) :
    Except String (List LLMResultV3) :=
  (stageParse parseLLMResultsResponseV3 decodeResult).mapError
    (fun e => "Stage 3 (Peer Review Result Grouping) failed: " ++ e)

/-- `compare_results` (verification_v3.py, lines 516-593) from the
`json.loads` call on: `llm_results` and `peer_results` only feed the prompt;
the returned rows are exactly the oracle's decoded `concordance` array. -/
def compare_results_pure (llm_results peer_results : List LLMResultV3)
    (decodeResult : Except String Json) :
    Except String (List LLMResultsConcordanceRow) :=
  (stageParse parseLLMResultsConcordanceResponse decodeResult).mapError
    (fun e => "Stage 4 (Results Concordance) failed: " ++ e)

/-! ### Stage 1 of the V3 pipeline, `extract_claims` (verification_v3.py,
lines 151-200), as a full run record -/

/-- What one invocation of `extract_claims` did: how many network requests it
issued, the prompt it sent, and the value it returned or the `ValueError`
message it raised. -/
structure ECRun where
  calls : Nat
  sentPrompt : Option String
  result : Except String (List LLMClaimV3)
deriving Repr

/-- `extract_claims(manuscript_text)`: builds the Stage-1 prompt by string
replacement, issues the request unconditionally (the function performs no
size check), then extracts/decodes/validates the response.  `oracle` maps the
sent prompt to the response text; `jsonLoads` models `json.loads`. -/
def extract_claims_v3_run (manuscript_text : String)
    (oracle : String → String) (jsonLoads : String → Except String Json) : ECRun :=
  let prompt := STAGE1_PROMPT_TEMPLATE.replace "$MANUSCRIPT_TEXT" manuscript_text
  let response_text := oracle prompt
  let json_text := extract_json_from_response response_text
  if json_text == "" || pyStrip json_text == "" then
    ⟨1, some prompt, .error ("Stage 1 (Claim Extraction) failed: " ++
      "Failed to extract JSON from response. Response text: " ++ pyTake response_text 1000)⟩
  else
    match stageParse parseLLMClaimsResponseV3 (jsonLoads json_text) with
    | .error e => ⟨1, some prompt, .error ("Stage 1 (Claim Extraction) failed: " ++ e)⟩
    | .ok claims => ⟨1, some prompt, .ok claims⟩

/-! ### The Oracle Client retry loop (verification.py, lines 243-266 and
419-443)

`for attempt in range(max_retries): try: … break; except APIError as e: if
"overloaded" in str(e).lower() and attempt < max_retries - 1: sleep; retry
else: raise; else: raise ValueError("Failed after maximum retries")`.

An oracle call outcome is either a response text or an `APIError` that is or
is not an "overloaded" error.  `remaining` counts the loop iterations still
available (`max_retries - attempt`), so `attempt < max_retries - 1` is
`remaining > 1`. -/

inductive OracleOutcome where
  | ok (response_text : String)
  | apiErr (overloaded : Bool)

inductive RetryOutcome where
  | success (response_text : String) (calls : Nat) (sleeps : List Nat)
  | raised (overloaded : Bool) (calls : Nat) (sleeps : List Nat)
  | maxRetriesError (calls : Nat) (sleeps : List Nat)
deriving DecidableEq, Repr

def retryLoop (f : Nat → OracleOutcome) : Nat → Nat → Nat → List Nat → RetryOutcome
  | attempt, 0, _delay, sleeps => .maxRetriesError attempt sleeps
  | attempt, remaining + 1, delay, sleeps =>
    match f attempt with
    | .ok resp => .success resp (attempt + 1) sleeps
    | .apiErr ov =>
      if ov && (remaining != 0) then
        retryLoop f (attempt + 1) remaining (delay * 2) (sleeps ++ [delay])
      else
        .raised ov (attempt + 1) sleeps

/-- The retry loop of `verify_claims`: `max_retries = 3`, `retry_delay = 2`. -/
def verify_claims_retry (f : Nat → OracleOutcome) : RetryOutcome :=
  retryLoop f 0 3 2 []

/-- The identical retry loop of `extract_claims_with_references`. -/
def extract_claims_with_references_retry (f : Nat → OracleOutcome) : RetryOutcome :=
  retryLoop f 0 3 2 []

def isMaxRetriesError : RetryOutcome → Bool
  | .maxRetriesError _ _ => true
  | _ => false

def retryCalls : RetryOutcome → Nat
  | .success _ c _ => c
  | .raised _ c _ => c
  | .maxRetriesError c _ => c

/-! ### `verify_claims` (verification.py, lines 214-308) as a full run
record -/

/-- The exceptions `verify_claims` can raise: a `ValueError` built locally or
a propagated `anthropic.APIError`. -/
inductive VError where
  | valueError (msg : String)
  | apiError (overloaded : Bool)
deriving DecidableEq, Repr

structure VCRun where
  calls : Nat
  sleeps : List Nat
  sentPrompt : Option String
  result : Except VError (List LLMClaim)
deriving Repr

/-- `count_tokens` (verification.py, lines 206-211): `len(text) // 4`. -/
def count_tokens (text : String) : Nat :=
  text.length / 4

/-- `verify_claims(full_text)` with the configured `settings.max_tokens`
ceiling: size check before any request, prompt concatenation, retry loop,
inline JSON-text extraction, decode, pydantic validation, empty-claims
check. -/
def verify_claims_run (maxTokens : Nat) (full_text : String)
    (f : Nat → OracleOutcome) (jsonLoads : String → Except String Json) : VCRun :=
  if count_tokens full_text > maxTokens then
    { calls := 0, sleeps := [], sentPrompt := none
      result := .error (.valueError ("Document exceeds maximum length of " ++
        toString maxTokens ++ " tokens (estimated " ++
        toString (count_tokens full_text) ++ " tokens)")) }
  else
    let full_prompt := MANUSCRIPT_CLAIM_EXTRACTION_PROMPT ++ full_text ++ "\n</manuscript>"
    match verify_claims_retry f with
    | .raised ov calls sleeps =>
      ⟨calls, sleeps, some full_prompt, .error (.apiError ov)⟩
    | .maxRetriesError calls sleeps =>
      ⟨calls, sleeps, some full_prompt, .error (.valueError "Failed after maximum retries")⟩
    | .success response_text calls sleeps =>
      let json_text := v1ExtractJsonText response_text
      match jsonLoads json_text with
      | .error e =>
        ⟨calls, sleeps, some full_prompt, .error (.valueError
          ("LLM returned invalid JSON: " ++ e ++ ". Response preview: " ++ pyTake response_text 200))⟩
      | .ok data =>
        match parseLLMAnalysisResponse data with
        | .error e =>
          ⟨calls, sleeps, some full_prompt, .error (.valueError
            ("LLM returned invalid JSON: " ++ e ++ ". Response preview: " ++ pyTake response_text 200))⟩
        | .ok claims =>
          if claims.isEmpty then
            ⟨calls, sleeps, some full_prompt,
              .error (.valueError "LLM did not extract any claims from the document")⟩
          else
            ⟨calls, sleeps, some full_prompt, .ok claims⟩

/-! ### Metrics (verification_v3.py `calculate_results_metrics`,
verification.py `calculate_verification_score`) -/

structure ResultsMetrics where
  total_comparisons : Nat
  agreements : Nat
  disagreements : Nat
  disjoint : Nat
  agreement_rate : ℚ
deriving DecidableEq, Repr

/-- `calculate_results_metrics` (verification_v3.py, lines 601-632):
`agreement_rate = agreements / total_comparisons * 100` when there are rows,
`0.0` otherwise. -/
def calculate_results_metrics (llm_results peer_results : List LLMResultV3)
    (concordance : List LLMResultsConcordanceRow) : ResultsMetrics :=
  let total_comparisons := concordance.length
  let agreements := concordance.countP (fun row => row.agreement_status == "agree")
  let disagreements := concordance.countP (fun row => row.agreement_status == "disagree")
  let disjointCount := concordance.countP (fun row => row.agreement_status == "disjoint")
  { total_comparisons := total_comparisons
    agreements := agreements
    disagreements := disagreements
    disjoint := disjointCount
    agreement_rate :=
      if total_comparisons > 0 then
        (agreements : ℚ) / (total_comparisons : ℚ) * 100
      else 0 }

structure VerificationScore where
  supported : Nat
  unsupported : Nat
  uncertain : Nat
  score : ℚ
deriving DecidableEq, Repr

/-- `calculate_verification_score` (verification.py, lines 311-329): the
returned tuple `(supported, unsupported, uncertain, score)` with
`score = supported / (supported + unsupported) * 100` when the denominator is
positive, `0.0` otherwise. -/
def calculate_verification_score (claims : List LLMClaim) : VerificationScore :=
  let supported := claims.countP (fun c => c.status == "SUPPORTED")
  let unsupported := claims.countP (fun c => c.status == "UNSUPPORTED")
  let uncertain := claims.countP (fun c => c.status == "UNCERTAIN")
  let verifiable := supported + unsupported
  { supported := supported
    unsupported := unsupported
    uncertain := uncertain
    score := if verifiable > 0 then (supported : ℚ) / (verifiable : ℚ) * 100 else 0 }

/-! ### Helper lemmas -/

lemma dropWhile_dropWhile (p : Char → Bool) (l : List Char) :
    (l.dropWhile p).dropWhile p = l.dropWhile p := by
  induction l with
  | nil => rfl
  | cons a t ih =>
    by_cases h : p a
    · simpa [List.dropWhile_cons, h] using ih
    · simp [List.dropWhile_cons, h]

lemma head_not_of_dropWhile_eq_self {p : Char → Bool} {b : Char} {l : List Char}
    (h : List.dropWhile p (b :: l) = b :: l) : p b = false := by
  by_contra hb
  rw [List.dropWhile_cons, if_pos (by simpa using hb)] at h
  have hlen : (List.dropWhile p l).length ≤ l.length :=
    (List.dropWhile_suffix p).sublist.length_le
  rw [h] at hlen
  simp at hlen

lemma dropWhile_eq_self_of_prefix {p : Char → Bool} {l t : List Char}
    (hl : l.dropWhile p = l) (ht : t <+: l) : t.dropWhile p = t := by
  cases t with
  | nil => rfl
  | cons c t' =>
    obtain ⟨u, hu⟩ := ht
    cases l with
    | nil => simp at hu
    | cons b l' =>
      have hcb : c = b := by
        have := congrArg (fun x => x.head?) hu
        simpa using this
      subst hcb
      rw [List.dropWhile_cons, if_neg (by simp [head_not_of_dropWhile_eq_self hl])]

/-- Trailing-whitespace removal, the second half of `pyStrip`. -/
def trimEnd (l : List Char) : List Char :=
  (l.reverse.dropWhile pyIsSpace).reverse

lemma pyStrip_eq_trimEnd (s : String) :
    pyStrip s = String.mk (trimEnd (s.toList.dropWhile pyIsSpace)) := rfl

lemma dropWhile_trimEnd (l : List Char) (hl : l.dropWhile pyIsSpace = l) :
    (trimEnd l).dropWhile pyIsSpace = trimEnd l := by
  apply dropWhile_eq_self_of_prefix hl
  have hsuf : l.reverse.dropWhile pyIsSpace <:+ l.reverse := List.dropWhile_suffix _
  have := List.reverse_prefix.mpr hsuf
  simpa using this

lemma trimEnd_trimEnd (l : List Char) : trimEnd (trimEnd l) = trimEnd l := by
  unfold trimEnd
  rw [List.reverse_reverse, dropWhile_dropWhile]

/-- Python's `strip` is idempotent. -/
lemma pyStrip_idem (s : String) : pyStrip (pyStrip s) = pyStrip s := by
  rw [pyStrip_eq_trimEnd, pyStrip_eq_trimEnd s]
  have ha : (s.toList.dropWhile pyIsSpace).dropWhile pyIsSpace
      = s.toList.dropWhile pyIsSpace := dropWhile_dropWhile _ _
  show String.mk (trimEnd ((trimEnd (s.toList.dropWhile pyIsSpace)).dropWhile pyIsSpace))
      = String.mk (trimEnd (s.toList.dropWhile pyIsSpace))
  rw [dropWhile_trimEnd _ ha, trimEnd_trimEnd]

/-- One unfolding step of the retry loop with iterations left. -/
lemma retryLoop_succ (f : Nat → OracleOutcome) (a r d : Nat) (s : List Nat) :
    retryLoop f a (r + 1) d s =
      match f a with
      | .ok resp => .success resp (a + 1) s
      | .apiErr ov =>
        if ov && (r != 0) then
          retryLoop f (a + 1) r (d * 2) (s ++ [d])
        else
          .raised ov (a + 1) s := rfl

/-- The retry loop with at least one iteration left never reaches the
`for`-`else` branch. -/
lemma retryLoop_not_maxRetries (f : Nat → OracleOutcome) :
    ∀ (r a d : Nat) (s : List Nat), isMaxRetriesError (retryLoop f a (r + 1) d s) = false := by
  intro r
  induction r with
  | zero =>
    intro a d s
    rw [retryLoop_succ]
    cases f a with
    | ok resp => rfl
    | apiErr ov => simp [isMaxRetriesError]
  | succ n ih =>
    intro a d s
    rw [retryLoop_succ]
    cases f a with
    | ok resp => rfl
    | apiErr ov =>
      cases ov with
      | false => rfl
      | true =>
        simpa using ih (a + 1) (d * 2) (s ++ [d])

/-- The retry loop makes at most `a + r` calls, counting calls from attempt
index 0. -/
lemma retryLoop_calls_le (f : Nat → OracleOutcome) :
    ∀ (r a d : Nat) (s : List Nat), retryCalls (retryLoop f a r d s) ≤ a + r := by
  intro r
  induction r with
  | zero => intro a d s; simp [retryLoop, retryCalls]
  | succ n ih =>
    intro a d s
    rw [retryLoop_succ]
    cases f a with
    | ok resp => simp [retryCalls]
    | apiErr ov =>
      cases ov with
      | false => simp [retryCalls]
      | true =>
        by_cases hn : n = 0
        · subst hn; simp [retryCalls]
        · have hrec := ih (a + 1) (d * 2) (s ++ [d])
          have hcond : (true && (n != 0)) = true := by simp [hn]
          show retryCalls
              (if (true && (n != 0)) = true then retryLoop f (a + 1) n (d * 2) (s ++ [d])
               else RetryOutcome.raised true (a + 1) s) ≤ a + (n + 1)
          rw [hcond, if_pos rfl]
          omega

/-- Validating a JSON array of strings built from `l` recovers `l`. -/
lemma asStrList_roundtrip (l : List String) :
    asStrList (Json.arr (l.map Json.str)) = .ok l := by
  induction l with
  | nil => rfl
  | cons a t ih =>
    simp only [asStrList] at ih ⊢
    rw [List.map_cons, List.mapM_cons, ih]
    rfl

/-! ### Concrete JSON payload builders (test inputs for the theorems) -/

/-- A decoded `results` entry as the oracle may return it. -/
def mkResultJson (ids : List String) (s r : String) : Json :=
  .obj [("claim_ids", .arr (ids.map .str)), ("status", .str s), ("status_reasoning", .str r)]

/-- A decoded Stage-2/3 response payload. -/
def mkResultsPayload (items : List Json) : Json :=
  .obj [("results", .arr items)]

/-- A decoded `concordance` entry as the oracle may return it (no `notes`). -/
def mkConcordanceRowJson (ids1 ids2 : List String) (s1 s2 ag : String) : Json :=
  .obj [("llm_claim_ids", .arr (ids1.map .str)), ("peer_claim_ids", .arr (ids2.map .str)),
        ("llm_status", .str s1), ("peer_status", .str s2), ("agreement_status", .str ag)]

/-- A decoded Stage-4 response payload. -/
def mkConcordancePayload (rows : List Json) : Json :=
  .obj [("concordance", .arr rows)]

lemma parseResultJson_roundtrip (ids : List String) (s r : String) :
    parseLLMResultV3 (mkResultJson ids s r) = .ok ⟨ids, s, r⟩ := by
  have h1 : reqStrListField (mkResultJson ids s r) "claim_ids"
      = asStrList (.arr (ids.map .str)) := rfl
  simp only [parseLLMResultV3, h1, asStrList_roundtrip]
  rfl

lemma parseResultsPayload_roundtrip (ids : List String) (s r : String) :
    parseLLMResultsResponseV3 (mkResultsPayload [mkResultJson ids s r]) = .ok [⟨ids, s, r⟩] := by
  have h1 : reqField (mkResultsPayload [mkResultJson ids s r]) "results"
      = .ok (.arr [mkResultJson ids s r]) := rfl
  simp only [parseLLMResultsResponseV3, h1]
  show [mkResultJson ids s r].mapM parseLLMResultV3
      = Except.ok [(⟨ids, s, r⟩ : LLMResultV3)]
  rw [List.mapM_cons, parseResultJson_roundtrip]
  rfl

lemma parseConcordanceRow_roundtrip (ids1 ids2 : List String) (s1 s2 ag : String) :
    parseLLMResultsConcordanceRow (mkConcordanceRowJson ids1 ids2 s1 s2 ag)
      = .ok ⟨ids1, ids2, s1, s2, ag, none⟩ := by
  have h1 : reqStrListField (mkConcordanceRowJson ids1 ids2 s1 s2 ag) "llm_claim_ids"
      = asStrList (.arr (ids1.map .str)) := rfl
  have h2 : reqStrListField (mkConcordanceRowJson ids1 ids2 s1 s2 ag) "peer_claim_ids"
      = asStrList (.arr (ids2.map .str)) := rfl
  simp only [parseLLMResultsConcordanceRow, h1, h2, asStrList_roundtrip]
  rfl

lemma parseConcordancePayload_roundtrip (ids1 ids2 : List String) (s1 s2 ag : String) :
    parseLLMResultsConcordanceResponse (mkConcordancePayload [mkConcordanceRowJson ids1 ids2 s1 s2 ag])
      = .ok [⟨ids1, ids2, s1, s2, ag, none⟩] := by
  have h1 : reqField (mkConcordancePayload [mkConcordanceRowJson ids1 ids2 s1 s2 ag]) "concordance"
      = .ok (.arr [mkConcordanceRowJson ids1 ids2 s1 s2 ag]) := rfl
  simp only [parseLLMResultsConcordanceResponse, h1]
  show [mkConcordanceRowJson ids1 ids2 s1 s2 ag].mapM parseLLMResultsConcordanceRow
      = Except.ok [(⟨ids1, ids2, s1, s2, ag, none⟩ : LLMResultsConcordanceRow)]
  rw [List.mapM_cons, parseConcordanceRow_roundtrip]
  rfl

/-! ### Claim theorems -/

/-- C1 (amended).  The claim said the Stage-4 comparator pairs each
overlapping ORACLE result with its best-overlap PEER result and derives
AGREE/DISAGREE from status equality.  `compare_results` implements no such
matching: the two result lists only shape the prompt (the output is
independent of them), and the rows returned are exactly the oracle's decoded
`concordance` array, accepted verbatim for every combination of claim-id
lists, statuses and agreement label after schema validation only. -/
theorem C1_compare_results_is_verbatim_oracle_output
    (lr lr2 pr pr2 : List LLMResultV3) (d : Except String Json)
    (ids1 ids2 : List String) (s1 s2 ag : String) :
    compare_results_pure lr pr d = compare_results_pure lr2 pr2 d
    ∧ compare_results_pure lr pr
        (.ok (mkConcordancePayload [mkConcordanceRowJson ids1 ids2 s1 s2 ag]))
      = .ok [⟨ids1, ids2, s1, s2, ag, none⟩] := by
  constructor
  · rfl
  · simp only [compare_results_pure, stageParse, parseConcordancePayload_roundtrip]
    rfl

/-- C1 counterexample.  With the ORACLE result `(["C1"], SUPPORTED)` and the
PEER result `(["C1"], UNSUPPORTED)` (overlapping claim sets, unequal
statuses), the comparator returns a row whose two sides are present and whose
`agreement_status` is `"agree"` although the statuses differ — the claimed
"AGREE iff statuses are equal" derivation is not enforced by the code. -/
theorem C1_counterexample :
    compare_results_pure [⟨["C1"], "SUPPORTED", "llm rationale"⟩]
        [⟨["C1"], "UNSUPPORTED", "reviewer rationale"⟩]
        (.ok (mkConcordancePayload
          [mkConcordanceRowJson ["C1"] ["C1"] "SUPPORTED" "UNSUPPORTED" "agree"]))
      = .ok [⟨["C1"], ["C1"], "SUPPORTED", "UNSUPPORTED", "agree", none⟩]
    ∧ ("SUPPORTED" : String) ≠ "UNSUPPORTED" ∧ ("agree" : String) ≠ "disagree" := by
  refine ⟨?_, by decide, by decide⟩
  simp only [compare_results_pure, stageParse, parseConcordancePayload_roundtrip]
  rfl

/-- C2 (amended).  The claim stated the invariant "agreement = DISJOINT iff
exactly one side's claim-id set is empty, never both".  The comparator
enforces no relation between the emptiness of the two claim-id lists and the
agreement label: a row with both sides empty is accepted with any agreement
string, and a row with both sides non-empty is accepted with the label
`"disjoint"`. -/
theorem C2_disjoint_invariant_not_enforced
    (lr pr : List LLMResultV3) (s1 s2 ag : String) :
    compare_results_pure lr pr
        (.ok (mkConcordancePayload [mkConcordanceRowJson [] [] s1 s2 ag]))
      = .ok [⟨[], [], s1, s2, ag, none⟩]
    ∧ compare_results_pure lr pr
        (.ok (mkConcordancePayload [mkConcordanceRowJson ["C1"] ["C2"] s1 s2 "disjoint"]))
      = .ok [⟨["C1"], ["C2"], s1, s2, "disjoint", none⟩] := by
  constructor <;>
    (simp only [compare_results_pure, stageParse, parseConcordancePayload_roundtrip]; rfl)

/-- C2 counterexample.  The comparator emits a ConcordanceRow whose
`llm_claim_ids` and `peer_claim_ids` are BOTH empty (labelled `"disjoint"`),
contradicting "the two sets are never both empty" and the claimed
iff-characterisation of DISJOINT. -/
theorem C2_counterexample :
    compare_results_pure [] []
        (.ok (mkConcordancePayload [mkConcordanceRowJson [] [] "UNCERTAIN" "UNCERTAIN" "disjoint"]))
      = .ok [⟨[], [], "UNCERTAIN", "UNCERTAIN", "disjoint", none⟩] := by
  simp only [compare_results_pure, stageParse, parseConcordancePayload_roundtrip]
  rfl

/-- C3 (amended).  The claim said each Result's claim_ids must exist in the
grounding claim set and that an unknown claim_id raises a ParseFailure.  The
Stage-2/Stage-3 validation (`LLMResultsResponseV3`) checks only the schema
shape: the grounding claim list passed in never participates in validation,
and a results payload with ANY claim-id list — known or unknown — is
accepted verbatim. -/
theorem C3_unknown_claim_ids_accepted
    (mtext rtext : String) (claims : List LLMClaimV3)
    (ids : List String) (s r : String) :
    llm_group_claims_into_results_pure mtext claims
        (.ok (mkResultsPayload [mkResultJson ids s r])) = .ok [⟨ids, s, r⟩]
    ∧ peer_review_group_claims_into_results_pure claims rtext
        (.ok (mkResultsPayload [mkResultJson ids s r])) = .ok [⟨ids, s, r⟩] := by
  constructor <;>
    (simp only [llm_group_claims_into_results_pure,
        peer_review_group_claims_into_results_pure, stageParse,
        parseResultsPayload_roundtrip]; rfl)

/-- C3 counterexample.  With grounding claim set `{C1}`, a grouping response
referencing the unknown claim_id `"C999"` is returned as a successful Result
— no ParseFailure is raised and the reference is not dropped. -/
theorem C3_counterexample :
    llm_group_claims_into_results_pure "manuscript"
        [⟨"C1", "claim text", "EXPLICIT", "source", ["DATA"], "reasoning"⟩]
        (.ok (mkResultsPayload [mkResultJson ["C999"] "SUPPORTED" "rationale"]))
      = .ok [⟨["C999"], "SUPPORTED", "rationale"⟩]
    ∧ ([⟨"C1", "claim text", "EXPLICIT", "source", ["DATA"], "reasoning"⟩] :
        List LLMClaimV3).map (fun c => c.claim_id) = ["C1"]
    ∧ ("C999" : String) ≠ "C1" := by
  refine ⟨?_, by decide, by decide⟩
  simp only [llm_group_claims_into_results_pure, stageParse, parseResultsPayload_roundtrip]
  rfl

/-- C5.  The Oracle Client retry loop makes at most 3 attempts; a
non-overloaded provider error at the first attempt propagates immediately
after one call with no sleep; exhausting all 3 attempts on overloaded errors
re-raises the overloaded provider error (the spec's `OracleUnavailable`)
after backoffs of 2 s then 4 s; and two overloaded errors followed by a
success yield a successful call (3 calls, sleeps 2 s and 4 s, no error
surfaced). -/
theorem C5_oracle_retry_policy (resp : String) (f : Nat → OracleOutcome) :
    verify_claims_retry (fun n => if n < 2 then .apiErr true else .ok resp)
      = .success resp 3 [2, 4]
    ∧ (f 0 = .apiErr false → verify_claims_retry f = .raised false 1 [])
    ∧ verify_claims_retry (fun _ => .apiErr true) = .raised true 3 [2, 4]
    ∧ retryCalls (verify_claims_retry f) ≤ 3 := by
  refine ⟨rfl, ?_, rfl, retryLoop_calls_le f 3 0 2 []⟩
  intro h
  show retryLoop f 0 3 2 [] = .raised false 1 []
  rw [retryLoop_succ, h]
  rfl

theorem C5_oracle_retry_policy_witness :
    verify_claims_retry (fun _ => OracleOutcome.apiErr false)
      = .raised false 1 [] :=
  (C5_oracle_retry_policy "response" (fun _ => OracleOutcome.apiErr false)).2.1 rfl

/-- C10.  In both retry loops (`verify_claims` and
`extract_claims_with_references`) the `for`-`else` branch raising
`ValueError("Failed after maximum retries")` is unreachable: for every
sequence of oracle-call outcomes the loop exits by `break` or by raising
from within the body. -/
theorem C10_retry_else_branch_unreachable (f g : Nat → OracleOutcome) :
    isMaxRetriesError (verify_claims_retry f) = false
    ∧ isMaxRetriesError (extract_claims_with_references_retry g) = false :=
  ⟨retryLoop_not_maxRetries f 2 0 2 [], retryLoop_not_maxRetries g 2 0 2 []⟩

/-- C8 (amended).  The claim said `agreement_rate = agreements / total` lies
in [0,1].  `calculate_results_metrics` computes a PERCENTAGE:
`agreements / total_comparisons * 100`, which lies in [0,100] and is `0.0`
when there are no ConcordanceRows (no division by zero). -/
theorem C8_agreement_rate_is_percentage
    (lr pr : List LLMResultV3) (rows : List LLMResultsConcordanceRow) :
    0 ≤ (calculate_results_metrics lr pr rows).agreement_rate
    ∧ (calculate_results_metrics lr pr rows).agreement_rate ≤ 100
    ∧ (calculate_results_metrics lr pr []).agreement_rate = 0
    ∧ (calculate_results_metrics lr pr rows).agreement_rate =
        (if 0 < rows.length then
          (rows.countP (fun row => row.agreement_status == "agree") : ℚ) / rows.length * 100
         else 0) := by
  have hcount : rows.countP (fun row => row.agreement_status == "agree") ≤ rows.length :=
    List.countP_le_length _
  refine ⟨?_, ?_, rfl, ?_⟩
  · simp only [calculate_results_metrics]
    split
    · positivity
    · norm_num
  · simp only [calculate_results_metrics]
    split
    · rename_i h
      have hlen : (0 : ℚ) < rows.length := by exact_mod_cast h
      have h1 : (rows.countP (fun row => row.agreement_status == "agree") : ℚ) / rows.length ≤ 1 :=
        (div_le_one hlen).mpr (by exact_mod_cast hcount)
      calc (rows.countP (fun row => row.agreement_status == "agree") : ℚ) / rows.length * 100
          ≤ 1 * 100 := by nlinarith [div_nonneg (by positivity : (0:ℚ) ≤ (rows.countP (fun row => row.agreement_status == "agree") : ℚ)) (le_of_lt hlen)]
        _ = 100 := by norm_num
    · norm_num
  · simp only [calculate_results_metrics]

/-- C8 counterexample.  For a single `"agree"` ConcordanceRow the code's
`agreement_rate` is `100`, not the claimed `agreements / total = 1`, and it
is not in [0,1]. -/
theorem C8_counterexample :
    (calculate_results_metrics [] []
        [⟨["C1"], ["C1"], "SUPPORTED", "SUPPORTED", "agree", none⟩]).agreement_rate = 100
    ∧ ((100 : ℚ) ≠ 1) ∧ ¬ ((100 : ℚ) ≤ 1) := by
  refine ⟨?_, by norm_num, by norm_num⟩
  simp only [calculate_results_metrics]
  norm_num [List.countP_cons]

/-- C9 (amended).  The claim said `verification_score =
supported / (supported + unsupported)`.  `calculate_verification_score`
computes the PERCENTAGE `supported / (supported + unsupported) * 100`
(UNCERTAIN excluded from the denominator), `0.0` when the denominator is
zero; the score lies in [0,100]. -/
theorem C9_verification_score_is_percentage (claims : List LLMClaim) :
    0 ≤ (calculate_verification_score claims).score
    ∧ (calculate_verification_score claims).score ≤ 100
    ∧ (calculate_verification_score claims).score =
        (if 0 < claims.countP (fun c => c.status == "SUPPORTED")
              + claims.countP (fun c => c.status == "UNSUPPORTED") then
          (claims.countP (fun c => c.status == "SUPPORTED") : ℚ)
            / ((claims.countP (fun c => c.status == "SUPPORTED")
                + claims.countP (fun c => c.status == "UNSUPPORTED")) : ℚ) * 100
         else 0)
    ∧ (calculate_verification_score
        [⟨"c", "s", "UNCERTAIN", "e", "DATA", none, none⟩]).score = 0 := by
  set s := claims.countP (fun c => c.status == "SUPPORTED") with hs
  set u := claims.countP (fun c => c.status == "UNSUPPORTED") with hu
  have hsu : s ≤ s + u := Nat.le_add_right s u
  refine ⟨?_, ?_, ?_, ?_⟩
  · simp only [calculate_verification_score, ← hs, ← hu]
    split
    · positivity
    · norm_num
  · simp only [calculate_verification_score, ← hs, ← hu]
    split
    · rename_i h
      have hpos : (0 : ℚ) < ((s + u : Nat) : ℚ) := by exact_mod_cast h
      have h1 : ((s : Nat) : ℚ) / ((s + u : Nat) : ℚ) ≤ 1 :=
        (div_le_one hpos).mpr (by exact_mod_cast hsu)
      have h0 : (0 : ℚ) ≤ ((s : Nat) : ℚ) / ((s + u : Nat) : ℚ) :=
        div_nonneg (by positivity) (le_of_lt hpos)
      nlinarith
    · norm_num
  · simp only [calculate_verification_score, ← hs, ← hu]
    push_cast
    rfl
  · simp [calculate_verification_score, List.countP_cons]

/-- C9 counterexample.  For a single SUPPORTED claim the code's score is
`100`, not the claimed `supported / (supported + unsupported) = 1`. -/
theorem C9_counterexample :
    (calculate_verification_score
        [⟨"c", "s", "SUPPORTED", "e", "DATA", none, none⟩]).score = 100
    ∧ ((100 : ℚ) ≠ 1) := by
  exact ⟨by simp [calculate_verification_score, List.countP_cons], by norm_num⟩

set_option maxHeartbeats 2000000 in
/-- C4 (amended).  The claim said the parser falls back to the substring
from the first `{`/`[` to the last matching `}`/`]` when no fence is present.
In `extract_json_from_response` an unfenced, non-whitespace text is returned
whole (stripped) — the bracket fallback fires only when the fence-processed
text is empty, and then it keeps the suffix to the END of the raw text; the
first-`{`-to-last-`}` substring is taken only by the inline parser of
verification.py (braces only, no `[`/`]`).  Fenced content is taken strictly
between the first fence line and the next closing fence line, and a decode
failure surfaces as a `ValueError` carrying the decode error, never
swallowed. -/
theorem C4_parser_fallback_behavior (s e mtext : String) :
    (containsSub (pyStrip s) tripleBacktick = false → pyStrip s ≠ "" →
      extract_json_from_response s = pyStrip s)
    ∧ extract_json_from_response "```json\n\x7b\x22a\x22: 1\x7d\n```" = "\x7b\x22a\x22: 1\x7d"
    ∧ v1ExtractJsonText "noise \x7b\x22a\x22: 1\x7d trail" = "\x7b\x22a\x22: 1\x7d"
    ∧ (extract_claims_v3_run mtext (fun _ => "not json") (fun _ => .error e)).result
        = .error ("Stage 1 (Claim Extraction) failed: " ++
            ("Failed to parse LLM response as JSON: " ++ e)) := by
  refine ⟨?_, by rfl, by rfl, by rfl⟩
  intro h1 h2
  have h3 : (pyStrip s == "") = false := beq_eq_false_iff_ne.mpr h2
  simp only [extract_json_from_response, h1, h3, Bool.false_eq_true, if_false, pyStrip_idem]

theorem C4_parser_fallback_behavior_witness :
    extract_json_from_response "plain text" = pyStrip "plain text" :=
  (C4_parser_fallback_behavior "plain text" "err" "m").1 (by decide) (by decide)

/-- C4 counterexample.  On the unfenced raw text `hello {"a": 1} world` the
claim mandates the bracket substring `{"a": 1}` (the spec-modelled
`specBracketSubstring`), but `extract_json_from_response` returns the whole
text unchanged. -/
theorem C4_counterexample :
    extract_json_from_response "hello \x7b\x22a\x22: 1\x7d world"
      = "hello \x7b\x22a\x22: 1\x7d world"
    ∧ specBracketSubstring "hello \x7b\x22a\x22: 1\x7d world" = some "\x7b\x22a\x22: 1\x7d"
    ∧ ("hello \x7b\x22a\x22: 1\x7d world" : String) ≠ "\x7b\x22a\x22: 1\x7d" := by
  exact ⟨by rfl, by rfl, by decide⟩

/-- C6 (amended).  In verification.py, a text whose estimated token count
(`len(text) // 4`) exceeds the configured ceiling makes `verify_claims` raise
the oversize `ValueError` (the spec's `DocumentTooLarge`) with ZERO network
calls, and when the check passes the full untruncated text is embedded in the
prompt that is sent.  The v3 `extract_claims`, however, performs no size
check at all (see the counterexample). -/
theorem C6_size_check_fails_fast (maxT : Nat) (text : String)
    (f : Nat → OracleOutcome) (loads : String → Except String Json) :
    (count_tokens text > maxT →
      (verify_claims_run maxT text f loads).calls = 0
      ∧ (verify_claims_run maxT text f loads).sentPrompt = none
      ∧ (verify_claims_run maxT text f loads).result
          = .error (.valueError ("Document exceeds maximum length of " ++ toString maxT ++
              " tokens (estimated " ++ toString (count_tokens text) ++ " tokens)")))
    ∧ (count_tokens text ≤ maxT →
        (verify_claims_run maxT text f loads).sentPrompt
          = some (MANUSCRIPT_CLAIM_EXTRACTION_PROMPT ++ text ++ "\n</manuscript>")) := by
  constructor
  · intro h
    unfold verify_claims_run
    rw [if_pos h]
    exact ⟨rfl, rfl, rfl⟩
  · intro h
    unfold verify_claims_run
    rw [if_neg (by omega)]
    split <;> try rfl
    dsimp only
    split <;> try rfl
    split <;> try rfl
    split <;> rfl

theorem C6_size_check_fails_fast_witness :
    (verify_claims_run 1 "aaaaaaaa" (fun _ => OracleOutcome.apiErr false)
        (fun _ => Except.error "x")).calls = 0
    ∧ (verify_claims_run 1 "aaaaaaaa" (fun _ => OracleOutcome.apiErr false)
        (fun _ => Except.error "x")).sentPrompt = none
    ∧ (verify_claims_run 1 "aaaaaaaa" (fun _ => OracleOutcome.apiErr false)
        (fun _ => Except.error "x")).result
        = .error (.valueError ("Document exceeds maximum length of " ++ toString 1 ++
            " tokens (estimated " ++ toString (count_tokens "aaaaaaaa") ++ " tokens)")) :=
  (C6_size_check_fails_fast 1 "aaaaaaaa" (fun _ => OracleOutcome.apiErr false)
    (fun _ => Except.error "x")).1 (by decide)

/-- C6 counterexample.  With a configured ceiling of 1 token, the text
`"aaaaaaaa"` estimates to 2 tokens, yet the v3 `extract_claims` issues its
network request anyway (1 call) and returns a normal result — no
`DocumentTooLarge` is raised before the call. -/
theorem C6_counterexample :
    count_tokens "aaaaaaaa" > 1
    ∧ (extract_claims_v3_run "aaaaaaaa" (fun _ => "\x7b\x22claims\x22: []\x7d")
        (fun t => if t == "\x7b\x22claims\x22: []\x7d"
          then .ok (Json.obj [("claims", Json.arr [])]) else .error "unexpected")).calls = 1
    ∧ (extract_claims_v3_run "aaaaaaaa" (fun _ => "\x7b\x22claims\x22: []\x7d")
        (fun t => if t == "\x7b\x22claims\x22: []\x7d"
          then .ok (Json.obj [("claims", Json.arr [])]) else .error "unexpected")).result
        = .ok [] := by
  exact ⟨by decide, by rfl, by rfl⟩

/-- C7 (amended).  The non-empty post-condition holds only in
verification.py: `verify_claims` raises "LLM did not extract any claims from
the document" when the validated claim list is empty.  The v3 Stage-1
`extract_claims` has no such check: a response whose `claims` array is empty
is returned as a normal, empty success. -/
theorem C7_empty_extraction_contrast :
    (verify_claims_run 1000 "doc" (fun _ => .ok "\x7b\x22claims\x22: []\x7d")
        (fun t => if t == "\x7b\x22claims\x22: []\x7d"
          then .ok (Json.obj [("claims", Json.arr [])]) else .error "unexpected")).result
      = .error (.valueError "LLM did not extract any claims from the document")
    ∧ (extract_claims_v3_run "doc" (fun _ => "\x7b\x22claims\x22: []\x7d")
        (fun t => if t == "\x7b\x22claims\x22: []\x7d"
          then .ok (Json.obj [("claims", Json.arr [])]) else .error "unexpected")).result
      = .ok [] := by
  exact ⟨by rfl, by rfl⟩

/-- C7 counterexample.  A Stage-1 invocation of the v3 pipeline that returns
normally with ZERO claims: the oracle answers `{"claims": []}` and
`extract_claims` returns the empty list as a success instead of raising
`NoClaimsExtracted`. -/
theorem C7_counterexample :
    (extract_claims_v3_run "a manuscript" (fun _ => "\x7b\x22claims\x22: []\x7d")
        (fun t => if t == "\x7b\x22claims\x22: []\x7d"
          then .ok (Json.obj [("claims", Json.arr [])]) else .error "unexpected")).result
      = .ok [] := by rfl

end OpenEval
